import Mathlib

/-!
Verification development for the claude-telegram bot core.

Shallow embedding of the TypeScript sources:
  src/bot.ts       -- createBot: busy set, running-job map, dispatchToClaude,
                      the cancel and clear command handlers, middleware chain
  src/shutdown.ts  -- ProcessTracker.waitForAll, setupGracefulShutdown
  src/activity.ts  -- createActivityStatus / sendUpdate
  src/types.ts     -- StreamJsonEvent, ClaudeResult shapes

src/claude.ts (runClaude) and src/session.ts (SessionStore) are not among the
provided sources; the definitions that stand for them are modelled from the
spec and say so in their doc comments.

Asynchronous handlers are embedded as pure state-transition functions over an
explicit `BotState`, with the outcomes of awaited operations (placeholder
delivery, subprocess settlement, final delivery) supplied by an environment
record, and the user-visible side effects collected in a list of `Action`.
-/

set_option maxHeartbeats 1000000

namespace ClaudeTelegram

/-- One in-flight dispatch for one user: the `RunningJob` record of src/bot.ts
(`child`, `chatId`, `statusMessageId`, `activity`, `canceled`). The mutable
object identity used by `running.get(userId) === job` is represented by
`jobId`; the activity reporter object is represented by its stopped flag. -/
structure RunningJob where
  jobId : Nat
  chatId : Nat
  statusMessageId : Nat
  canceled : Bool
  activityStopped : Bool
deriving DecidableEq, Repr

/-- The shared mutable state of `createBot`: the per-user busy set
(`const busy = new Set<number>()`) and the running-job map
(`const running = new Map<number, RunningJob>()`), plus a counter supplying
fresh job identities. -/
structure BotState where
  busy : List Nat
  running : List (Nat × RunningJob)
  nextJobId : Nat
deriving DecidableEq, Repr

/-- Lookup in the running-job map (`running.get(userId)`). -/
def findJob : List (Nat × RunningJob) → Nat → Option RunningJob
  | [], _ => none
  | (k, j) :: rest, u => if k = u then some j else findJob rest u

def getJob (s : BotState) (u : Nat) : Option RunningJob :=
  findJob s.running u

/-- `running.set(userId, job)`: the key maps to exactly the new record. -/
def setJob (s : BotState) (u : Nat) (j : RunningJob) : BotState :=
  { s with running := (u, j) :: s.running.filter (fun p => p.1 != u) }

/-- `running.delete(userId)`. -/
def removeJob (s : BotState) (u : Nat) : BotState :=
  { s with running := s.running.filter (fun p => p.1 != u) }

/-- `busy.delete(userId)`. -/
def removeBusy (s : BotState) (u : Nat) : BotState :=
  { s with busy := s.busy.filter (fun v => v != u) }

/-- `busy.add(userId)`. -/
def addBusy (s : BotState) (u : Nat) : BotState :=
  { s with busy := u :: s.busy }

/-- User-visible and process-level side effects emitted by the handlers of
src/bot.ts, in program order. Reply and edit constructors record the attempt
(the call being issued), whether or not the Telegram API call succeeds. -/
inductive Action where
  | replyBusy
  | replyPlaceholder
  | spawnChild (u : Nat)
  | trackerRegister
  | activityStop
  | deleteStatus (chatId msgId : Nat)
  | sendOutput (text : String)
  | replyEmpty
  | replyError (text : String)
  | editError (chatId msgId : Nat) (text : String)
  | replyNothingToCancel
  | replyAlreadyCancelling
  | editCancelling (chatId msgId : Nat)
  | killTerm (u : Nat)
  | scheduleForcedKill (u jobId delayMs : Nat)
  | killKill (u : Nat)
  | replyCancelAck
  | replyCleared
deriving DecidableEq, Repr

/-- Result shape returned by the runClaude promise, from src/types.ts
(`success`, `output`, `error?`, `sessionId?`; the floating-point `costUsd`
and the `durationMs` fields are not consumed by the handlers modelled here). -/
structure ClaudeResult where
  success : Bool
  output : String
  error : Option String
  sessionId : Option String
deriving DecidableEq, Repr

/-- Outcomes of the operations `dispatchToClaude` awaits: whether the
placeholder reply succeeds (and the message id it gets), how the runClaude
promise settles (`Except.error e` covers a rejected promise and a synchronous
spawn throw, both landing in the same catch block), whether a cancel or clear
command marked the job canceled while the promise was pending, and whether the
final delivery call succeeds (with the message of the error it throws when it
does not). -/
structure DispatchEnv where
  placeholderOk : Bool
  statusMsgId : Nat
  runOutcome : Except String ClaudeResult
  canceledDuringRun : Bool
  deliveryOk : Bool
  deliveryErrMsg : String

/-- The blank-message guard `!message || !message.trim()` of src/bot.ts: the
message is empty or consists of whitespace only. -/
def isBlank (s : String) : Bool :=
  s.toList.all Char.isWhitespace

/-- The command check `text.startsWith("/")` of the text-message handler. -/
def startsWithSlash (s : String) : Bool :=
  match s.toList with
  | [] => false
  | c :: _ => c = '/'

/-- The state change performed on a live job by the cancel or clear handler
while a dispatch is awaiting its promise: `job.canceled = true` together with
`job.activity.stop()` (object mutation seen through the map). -/
def cancelMark (s : BotState) (u : Nat) : BotState :=
  match getJob s u with
  | none => s
  | some j => setJob s u { j with canceled := true, activityStopped := true }

/-- The failure reply text of src/bot.ts:
`result.error ? Error: ${result.error.slice(0, 300)} : "Unknown error occurred."`. -/
def errorReplyText (e : Option String) : String :=
  match e with
  | some msg => "Error: " ++ msg.take 300
  | none => "Unknown error occurred."

/-- `dispatchToClaude(ctx, message)` of src/bot.ts as a state transition.
Mirrors the source path by path: the falsy userId/chatId and blank-message
guards, the busy-set concurrency guard, the placeholder reply and its failure
path, spawn plus `running.set` plus tracker registration, the settlement of
the awaited promise (the early return of the canceled-flag check is
represented by an empty final-reply suffix), the catch block editing the
status message with a truncated error, and the `finally` clause releasing the
busy set. -/
def dispatchRun (s : BotState) (userId chatId : Option Nat) (msg : String)
    (env : DispatchEnv) : BotState × List Action :=
  match userId, chatId with
  | some u, some c =>
    if isBlank msg then (s, [])
    else if u ∈ s.busy then (s, [Action.replyBusy])
    else
      let s1 := addBusy s u
      if env.placeholderOk = false then
        (removeBusy s1 u, [Action.replyPlaceholder])
      else
        let msgId := env.statusMsgId
        let jid := s1.nextJobId
        let job : RunningJob :=
          { jobId := jid, chatId := c, statusMessageId := msgId
          , canceled := false, activityStopped := false }
        let s2 := { setJob s1 u job with nextJobId := jid + 1 }
        let startActs := [Action.replyPlaceholder, Action.spawnChild u, Action.trackerRegister]
        let s3 := if env.canceledDuringRun then cancelMark s2 u else s2
        match env.runOutcome with
        | Except.ok r =>
          let jobNow := (getJob s3 u).getD job
          let s4 := if (getJob s3 u).any (fun j => j.jobId == jid) then removeJob s3 u else s3
          let settleActs := startActs ++ [Action.activityStop, Action.deleteStatus c msgId]
          let failEdit :=
            [Action.activityStop,
             Action.editError c msgId ("Error: " ++ env.deliveryErrMsg.take 300)]
          let replyActs :=
            if jobNow.canceled then []
            else if r.success && !(r.output == "") then
              if env.deliveryOk then [Action.sendOutput r.output]
              else Action.sendOutput r.output :: failEdit
            else if r.success then
              if env.deliveryOk then [Action.replyEmpty]
              else Action.replyEmpty :: failEdit
            else
              if env.deliveryOk then [Action.replyError (errorReplyText r.error)]
              else Action.replyError (errorReplyText r.error) :: failEdit
          (removeBusy s4 u, settleActs ++ replyActs)
        | Except.error e =>
          let s4 := if (getJob s3 u).any (fun j => j.jobId == jid) then removeJob s3 u else s3
          (removeBusy s4 u,
           startActs ++ [Action.activityStop, Action.editError c msgId ("Error: " ++ e.take 300)])
  | _, _ => (s, [])

/-- The `/cancel` command handler of src/bot.ts. -/
def cancelCmd (s : BotState) (userId : Option Nat) : BotState × List Action :=
  match userId with
  | none => (s, [])
  | some u =>
    match getJob s u with
    | none => (s, [Action.replyNothingToCancel])
    | some job =>
      if job.canceled then (s, [Action.replyAlreadyCancelling])
      else
        (setJob s u { job with canceled := true, activityStopped := true },
         [Action.activityStop,
          Action.editCancelling job.chatId job.statusMessageId,
          Action.killTerm u,
          Action.scheduleForcedKill u job.jobId 5000,
          Action.replyCancelAck])

/-- The body of the `setTimeout(..., 5000)` escalation closure scheduled by
the cancel and clear handlers: when it fires, a SIGKILL is issued exactly if
the job it captured is still the current entry of the running map
(`running.get(userId) === job`); the dispatch settlement path removes the
entry when the subprocess settles, so a still-present entry means the process
has not settled. -/
def forcedKillFire (s : BotState) (u jobId : Nat) : List Action :=
  if (getJob s u).any (fun j => j.jobId == jobId) then [Action.killKill u] else []

/-- Modelled from the spec: the Session Store of src/session.ts, which is not
among the provided sources. Per spec section 4.1 it maps a user id to an
optional opaque external-session identifier, and `resetSession` clears the
identifier for that user. -/
abbrev SessionStore := List (Nat × String)

def getSessionId : SessionStore → Nat → Option String
  | [], _ => none
  | (k, sid) :: rest, u => if k = u then some sid else getSessionId rest u

def resetSession (store : SessionStore) (u : Nat) : SessionStore :=
  store.filter (fun p => p.1 != u)

inductive SessionFlag where
  | resume (sessionId : String)
  | fresh
deriving DecidableEq, Repr

/-- Modelled from the spec: the session-flag selection of the spawn contract
in src/claude.ts, which is not among the provided sources. Per spec sections
4.2 and 6, the invocation uses the resume flag with the stored
external-session identifier when one is present, else the fresh-session flag. -/
def sessionFlagFor (store : SessionStore) (u : Nat) : SessionFlag :=
  match getSessionId store u with
  | some sid => SessionFlag.resume sid
  | none => SessionFlag.fresh

/-- The `/clear` command handler of src/bot.ts: performs the cancellation
state change and signals when a live, not-yet-canceled job exists, then clears
the stored session identifier and acknowledges. -/
def clearCmd (s : BotState) (store : SessionStore) (userId : Option Nat) :
    BotState × SessionStore × List Action :=
  match userId with
  | none => (s, store, [])
  | some u =>
    let step :=
      match getJob s u with
      | some job =>
        if job.canceled then (s, ([] : List Action))
        else
          (setJob s u { job with canceled := true, activityStopped := true },
           [Action.activityStop,
            Action.editCancelling job.chatId job.statusMessageId,
            Action.killTerm u,
            Action.scheduleForcedKill u job.jobId 5000])
      | none => (s, ([] : List Action))
    (step.1, resetSession store u, step.2 ++ [Action.replyCleared])

/-! ## Process tracker and graceful shutdown (src/shutdown.ts) -/

/-- The polling loop of `ProcessTracker.waitForAll`: `countAt i` is the size
of the tracked-process registry observed at the i-th check, checks being
separated by the fixed 500 ms sleep. Returns true when a check observes zero;
returns false when the fuel (checks remaining before the deadline) runs out
with a nonzero count. -/
def waitForAllAux (countAt : Nat → Nat) : Nat → Nat → Bool
  | i, fuel =>
    if countAt i = 0 then true
    else
      match fuel with
      | 0 => false
      | f + 1 => waitForAllAux countAt (i + 1) f

/-- The number of 500 ms polls that can begin before `timeoutMs` has elapsed:
the loop condition `Date.now() - start < timeoutMs` at check i reads
elapsed time 500 * i, so the loop stops retrying at the first i with
500 * i >= timeoutMs. -/
def pollLimit (timeoutMs : Nat) : Nat :=
  (timeoutMs + 499) / 500

/-- `ProcessTracker.waitForAll(timeoutMs)` of src/shutdown.ts. -/
def waitForAll (countAt : Nat → Nat) (timeoutMs : Nat) : Bool :=
  waitForAllAux countAt 0 (pollLimit timeoutMs)

/-- The drain decision inside the `shutdown` closure of
`setupGracefulShutdown`: `killAll` is invoked exactly when the outstanding
count is positive and `waitForAll` returned false. -/
def shutdownKillInvoked (initialCount : Nat) (countAt : Nat → Nat)
    (timeoutMs : Nat) : Bool :=
  if initialCount = 0 then false else !(waitForAll countAt timeoutMs)

/-! ## Activity status reporter (src/activity.ts) -/

/-- The closure state of `createActivityStatus`: the current category label,
the text of the last successfully sent edit, and the stopped flag. -/
structure ActivityState where
  currentLabel : String
  lastSentText : String
  stopped : Bool
deriving DecidableEq, Repr

/-- `String(sec).padStart(2, "0")`. -/
def pad2 (n : Nat) : String :=
  if n < 10 then "0" ++ toString n else toString n

/-- `formatElapsed` of src/activity.ts. -/
def formatElapsed (ms : Nat) : String :=
  let totalSec := ms / 1000
  toString (totalSec / 60) ++ ":" ++ pad2 (totalSec % 60)

/-- The text composed by `sendUpdate`: `${currentLabel}  ⏱ ${elapsed}`. -/
def composeText (label : String) (elapsedMs : Nat) : String :=
  label ++ "  ⏱ " ++ formatElapsed elapsedMs

/-- One invocation of `sendUpdate` at elapsed time `elapsedMs`, with `editOk`
the outcome of the awaited `editMessageText` call. Returns the new closure
state and the text of the edit call issued, if one was issued; `lastSentText`
advances only when the edit succeeds (the catch block swallows failures
without recording the text). -/
def sendUpdate (st : ActivityState) (elapsedMs : Nat) (editOk : Bool) :
    ActivityState × Option String :=
  if st.stopped then (st, none)
  else
    let text := composeText st.currentLabel elapsedMs
    if text = st.lastSentText then (st, none)
    else if editOk then ({ st with lastSentText := text }, some text)
    else (st, some text)

/-- Number of edit calls recorded by one `sendUpdate` outcome. -/
def editCount (o : Option String) : Nat :=
  if o.isSome then 1 else 0

/-! ## Middleware chain (src/bot.ts) -/

/-- `ctx.chat` as seen by the middleware: its id and its `type` string. -/
structure ChatInfo where
  id : Nat
  ctype : String
deriving DecidableEq, Repr

/-- The parts of a Grammy update context the middleware reads. -/
structure UpdateCtx where
  senderId : Option Nat
  chat : Option ChatInfo
  hasMessage : Bool
deriving DecidableEq, Repr

/-- Outcome of one middleware: halt the chain (with the replies it issued) or
pass to `next()`. -/
inductive MwResult where
  | halted (replies : List String)
  | passed
deriving DecidableEq, Repr

/-- The private-chat-only middleware of src/bot.ts. -/
def privateChatMw (ctx : UpdateCtx) : MwResult :=
  match ctx.chat with
  | none => MwResult.halted []
  | some ch =>
    if ch.ctype = "private" then MwResult.passed
    else MwResult.halted (if ctx.hasMessage then ["Please message me in a private chat."] else [])

/-- The whitelist middleware of src/bot.ts: an absent sender id halts
silently; otherwise `config.whitelist.length === 0 || !whitelist.includes(id)`
halts with the denial reply (issued when a chat is present). -/
def whitelistMw (whitelist : List Nat) (ctx : UpdateCtx) : MwResult :=
  match ctx.senderId with
  | none => MwResult.halted []
  | some uid =>
    if whitelist.length = 0 || !(whitelist.contains uid) then
      MwResult.halted (if ctx.chat.isSome then ["Access denied."] else [])
    else
      MwResult.passed

/-- A text-message update run through the middleware chain and, when both
middlewares pass, the `message:text` handler (which skips commands and calls
`dispatchToClaude`). Spawning can only happen inside `dispatchRun`, so a
halted chain produces no actions at all. -/
def messageUpdateRun (whitelist : List Nat) (ctx : UpdateCtx) (s : BotState)
    (msg : String) (env : DispatchEnv) : BotState × List Action :=
  match privateChatMw ctx with
  | MwResult.halted _ => (s, [])
  | MwResult.passed =>
    match whitelistMw whitelist ctx with
    | MwResult.halted _ => (s, [])
    | MwResult.passed =>
      if startsWithSlash msg then (s, [])
      else dispatchRun s ctx.senderId (ctx.chat.map (fun ch => ch.id)) msg env

/-! ## Run model for the absent src/claude.ts (modelled from the spec) -/

/-- A content block of a stream-json record (src/types.ts); the source field
`type` is named `btype` here. -/
structure ContentBlock where
  btype : String
  name : Option String
  text : Option String
deriving DecidableEq, Repr

structure MessageBody where
  content : Option (List ContentBlock)
deriving DecidableEq, Repr

/-- A decoded stream-json record (src/types.ts); the source field `type` is
named `etype` here, and the floating-point `total_cost_usd` field is not
consumed by anything modelled in this development. -/
structure StreamJsonEvent where
  etype : String
  subtype : Option String
  session_id : Option String
  result : Option String
  message : Option MessageBody
deriving DecidableEq, Repr

/-- The terminal record of the streaming protocol (`type == "result"`). -/
def isTerminalEvent (e : StreamJsonEvent) : Bool :=
  e.etype == "result"

inductive ErrKind where
  | timeout
  | runFailure
deriving DecidableEq, Repr

/-- Terminal value of one run in the run model. -/
structure RunResultM where
  success : Bool
  output : String
  errorKind : Option ErrKind
  sessionId : Option String
deriving DecidableEq, Repr

/-- One observable subprocess history: the timestamped decoded records it
emits and the time and exit code of its exit. An `exitTime` at or beyond the
timeout stands for a process that has not exited when the timer expires. -/
structure RunTrace where
  events : List (Nat × StreamJsonEvent)
  exitTime : Nat
  exitCode : Nat

structure RunModelOut where
  result : RunResultM
  sigtermSent : Bool
  jobMarkedCanceled : Bool
deriving DecidableEq, Repr

/-- Modelled from the spec: `runClaude` of src/claude.ts, which is not among
the provided sources. Per spec section 4.2: a wall-clock timer of the
configured duration starts at spawn; on expiry the Job is marked canceled, a
termination signal is sent, and the run resolves as a failure with the
timeout error kind. If the subprocess exits before expiry, normal completion
builds success = (exit code is 0 and a terminal record was seen), with the
last terminal record winning (section 4.2, streaming decode). -/
def runClaudeModel (timeoutMs : Nat) (tr : RunTrace) : RunModelOut :=
  if tr.exitTime < timeoutMs then
    let pre := tr.events.filter (fun p => p.1 ≤ tr.exitTime)
    let terminal := (pre.filter (fun p => isTerminalEvent p.2)).getLast?
    { result :=
        { success := tr.exitCode == 0 && terminal.isSome
        , output := (terminal.map (fun p => (p.2.result).getD "")).getD ""
        , errorKind :=
            if tr.exitCode == 0 && terminal.isSome then none else some ErrKind.runFailure
        , sessionId := terminal.bind (fun p => p.2.session_id) }
    , sigtermSent := false
    , jobMarkedCanceled := false }
  else
    { result :=
        { success := false, output := "", errorKind := some ErrKind.timeout
        , sessionId := none }
    , sigtermSent := true
    , jobMarkedCanceled := true }

/-- The final-reply actions of the settlement path: a success output, the
empty-response notice, the failure reply, or the catch-block error edit. -/
def isFinalReply : Action → Bool
  | Action.sendOutput _ => true
  | Action.replyEmpty => true
  | Action.replyError _ => true
  | Action.editError _ _ _ => true
  | _ => false

/-- The terminal user-visible replies a dispatch can resolve to: the final
replies of the settlement path together with the busy acknowledgment. -/
def isTerminalReply : Action → Bool
  | Action.sendOutput _ => true
  | Action.replyEmpty => true
  | Action.replyError _ => true
  | Action.editError _ _ _ => true
  | Action.replyBusy => true
  | _ => false

/-! ## Concrete example data for witnesses and counterexamples -/

def exJob : RunningJob :=
  { jobId := 1, chatId := 9, statusMessageId := 42, canceled := false, activityStopped := false }

/-- A state with one live job for user 7, whose id is in the busy set. -/
def exBusyState : BotState :=
  { busy := [7], running := [(7, exJob)], nextJobId := 2 }

/-- The idle state: no busy users, no running jobs. -/
def exFreeState : BotState :=
  { busy := [], running := [], nextJobId := 0 }

def exResultOk : ClaudeResult :=
  { success := true, output := "ok", error := none, sessionId := none }

/-- An environment in which every awaited operation succeeds. -/
def exEnvOk : DispatchEnv :=
  { placeholderOk := true, statusMsgId := 50, runOutcome := Except.ok exResultOk
  , canceledDuringRun := false, deliveryOk := true, deliveryErrMsg := "" }

/-- An environment in which a cancel command marks the job canceled while the
promise is pending, and the promise then resolves normally. -/
def exEnvCanceled : DispatchEnv :=
  { placeholderOk := true, statusMsgId := 50, runOutcome := Except.ok exResultOk
  , canceledDuringRun := true, deliveryOk := true, deliveryErrMsg := "" }

/-- An environment in which the placeholder reply fails. -/
def exEnvPlaceholderFail : DispatchEnv :=
  { placeholderOk := false, statusMsgId := 50, runOutcome := Except.ok exResultOk
  , canceledDuringRun := false, deliveryOk := true, deliveryErrMsg := "boom" }

/-- A private-chat update context for sender 5. -/
def exCtx : UpdateCtx :=
  { senderId := some 5, chat := some { id := 5, ctype := "private" }, hasMessage := true }

def exActSt : ActivityState :=
  { currentLabel := "💭 Thinking", lastSentText := "", stopped := false }

/-! ## Helper lemmas -/

theorem findJob_mem {l : List (Nat × RunningJob)} {u : Nat} {j : RunningJob}
    (h : findJob l u = some j) : (u, j) ∈ l := by
  induction l with
  | nil => simp [findJob] at h
  | cons hd tl ih =>
    obtain ⟨k, j0⟩ := hd
    by_cases hk : k = u
    · subst hk
      simp [findJob] at h
      simp [h]
    · simp [findJob, hk] at h
      exact List.mem_cons_of_mem _ (ih h)

theorem findJob_filter_self (l : List (Nat × RunningJob)) (u : Nat) :
    findJob (l.filter (fun p => p.1 != u)) u = none := by
  induction l with
  | nil => simp [findJob]
  | cons hd tl ih =>
    by_cases h : hd.1 = u
    · simp [List.filter_cons, h, ih]
    · simp [List.filter_cons, h, findJob, ih]

theorem not_mem_filter_self (l : List Nat) (u : Nat) :
    u ∉ l.filter (fun v => v != u) := by
  intro h
  have := (List.mem_filter.mp h).2
  simp at this

theorem mem_filter_ne {l : List Nat} {v u : Nat} (hv : v ∈ l) (hne : v ≠ u) :
    v ∈ l.filter (fun x => x != u) :=
  List.mem_filter.mpr ⟨hv, by simp [hne]⟩

theorem getJob_setJob_self (s : BotState) (u : Nat) (j : RunningJob) :
    getJob (setJob s u j) u = some j := by
  simp [getJob, setJob, findJob]

theorem getJob_cancelMark (s : BotState) (u : Nat) :
    getJob (cancelMark s u) u
      = (getJob s u).map (fun j => { j with canceled := true, activityStopped := true }) := by
  cases h : getJob s u with
  | none => simp [cancelMark, h]
  | some j => simp [cancelMark, h, getJob_setJob_self]

theorem getSessionId_resetSession (store : SessionStore) (u : Nat) :
    getSessionId (resetSession store u) u = none := by
  induction store with
  | nil => simp [resetSession, getSessionId]
  | cons hd tl ih =>
    by_cases h : hd.1 = u
    · simpa [resetSession, List.filter_cons, h] using ih
    · simpa [resetSession, List.filter_cons, h, getSessionId] using ih

@[simp] theorem addBusy_busy (s : BotState) (u : Nat) : (addBusy s u).busy = u :: s.busy := rfl

@[simp] theorem addBusy_running (s : BotState) (u : Nat) : (addBusy s u).running = s.running := rfl

@[simp] theorem removeBusy_busy (s : BotState) (u : Nat) :
    (removeBusy s u).busy = s.busy.filter (fun v => v != u) := rfl

@[simp] theorem removeBusy_running (s : BotState) (u : Nat) :
    (removeBusy s u).running = s.running := rfl

@[simp] theorem setJob_busy (s : BotState) (u : Nat) (j : RunningJob) :
    (setJob s u j).busy = s.busy := rfl

@[simp] theorem removeJob_busy (s : BotState) (u : Nat) : (removeJob s u).busy = s.busy := rfl

@[simp] theorem removeJob_running (s : BotState) (u : Nat) :
    (removeJob s u).running = s.running.filter (fun p => p.1 != u) := rfl

@[simp] theorem cancelMark_busy (s : BotState) (u : Nat) : (cancelMark s u).busy = s.busy := by
  cases h : getJob s u with
  | none => simp [cancelMark, h]
  | some j => simp [cancelMark, h, setJob]

theorem editCount_le_one (o : Option String) : editCount o ≤ 1 := by
  unfold editCount
  split <;> simp

theorem waitForAllAux_true_iff (countAt : Nat → Nat) (fuel i : Nat) :
    waitForAllAux countAt i fuel = true ↔ ∃ k, k ≤ fuel ∧ countAt (i + k) = 0 := by
  induction fuel generalizing i with
  | zero =>
    by_cases h : countAt i = 0
    · simp [waitForAllAux, h]
    · simp [waitForAllAux, h]
  | succ f ih =>
    by_cases h : countAt i = 0
    · simp [waitForAllAux, h]
      exact ⟨0, by omega, h⟩
    · rw [waitForAllAux]
      simp only [h, if_false]
      rw [ih (i + 1)]
      constructor
      · rintro ⟨k, hk, hz⟩
        exact ⟨k + 1, by omega, by simpa [Nat.add_assoc, Nat.add_comm 1 k] using hz⟩
      · rintro ⟨k, hk, hz⟩
        cases k with
        | zero => simp at hz; exact absurd hz h
        | succ k0 =>
          exact ⟨k0, by omega, by simpa [Nat.add_assoc, Nat.add_comm 1 k0] using hz⟩

@[simp] theorem nextUpd_busy (s : BotState) (n : Nat) :
    ({ s with nextJobId := n } : BotState).busy = s.busy := rfl

@[simp] theorem nextUpd_running (s : BotState) (n : Nat) :
    ({ s with nextJobId := n } : BotState).running = s.running := rfl

@[simp] theorem setJob_running (s : BotState) (u : Nat) (j : RunningJob) :
    (setJob s u j).running = (u, j) :: s.running.filter (fun p => p.1 != u) := rfl

@[simp] theorem addBusy_nextJobId (s : BotState) (u : Nat) :
    (addBusy s u).nextJobId = s.nextJobId := rfl

theorem getJob_mk_cons_self (b : List Nat) (rest : List (Nat × RunningJob)) (n u : Nat)
    (j : RunningJob) :
    getJob { busy := b, running := (u, j) :: rest, nextJobId := n } u = some j := by
  simp [getJob, findJob]

theorem dispatch_final_running_sub (s : BotState) (u c : Nat) (msg : String)
    (env : DispatchEnv)
    (hb : isBlank msg = false) (hbusy : u ∉ s.busy) (hph : ¬ env.placeholderOk = false) :
    ∀ p ∈ (dispatchRun s (some u) (some c) msg env).1.running, p ∈ s.running ∧ p.1 ≠ u := by
  cases hro : env.runOutcome with
  | ok r =>
    by_cases hcd : env.canceledDuringRun = true
    · intro p hp
      simp [dispatchRun, hb, hbusy, hph, hro, hcd, getJob_mk_cons_self, getJob_setJob_self,
            cancelMark, List.mem_filter] at hp
      exact ⟨hp.1, hp.2⟩
    · intro p hp
      simp [dispatchRun, hb, hbusy, hph, hro, hcd, getJob_mk_cons_self, List.mem_filter] at hp
      exact ⟨hp.1, hp.2⟩
  | error e =>
    by_cases hcd : env.canceledDuringRun = true
    · intro p hp
      simp [dispatchRun, hb, hbusy, hph, hro, hcd, getJob_mk_cons_self, getJob_setJob_self,
            cancelMark, List.mem_filter] at hp
      exact ⟨hp.1, hp.2⟩
    · intro p hp
      simp [dispatchRun, hb, hbusy, hph, hro, hcd, getJob_mk_cons_self, List.mem_filter] at hp
      exact ⟨hp.1, hp.2⟩

/-! ## Claim theorems -/

/-- Claim C2: the cancellation contract of the cancel command handler. With no
live Job for the user it replies that there is nothing to cancel and changes
no state; on a Job already marked canceled it replies that cancellation is
already in progress and changes no state; otherwise it marks the Job
canceled, stops the activity reporter, sends SIGTERM to the subprocess, and
schedules a forced-kill check after the fixed 5000 ms grace period, whose
firing issues SIGKILL exactly when the Job has not yet settled (the settle
path of the dispatch removes the Job from the running map). -/
theorem cancel_contract (s : BotState) (u : Nat) :
    (getJob s u = none → cancelCmd s (some u) = (s, [Action.replyNothingToCancel]))
  ∧ (∀ j, getJob s u = some j → j.canceled = true →
      cancelCmd s (some u) = (s, [Action.replyAlreadyCancelling]))
  ∧ (∀ j, getJob s u = some j → j.canceled = false →
      cancelCmd s (some u) =
        (setJob s u { j with canceled := true, activityStopped := true },
         [Action.activityStop,
          Action.editCancelling j.chatId j.statusMessageId,
          Action.killTerm u,
          Action.scheduleForcedKill u j.jobId 5000,
          Action.replyCancelAck]))
  ∧ (∀ (sLater : BotState) (jobId : Nat),
      Action.killKill u ∈ forcedKillFire sLater u jobId ↔
        ∃ j, getJob sLater u = some j ∧ j.jobId = jobId) := by
  refine ⟨?_, ?_, ?_, ?_⟩
  · intro h
    simp [cancelCmd, h]
  · intro j hj hc
    simp [cancelCmd, hj, hc]
  · intro j hj hc
    simp [cancelCmd, hj, hc]
  · intro sLater jobId
    cases h : getJob sLater u with
    | none => simp [forcedKillFire, h]
    | some j =>
      by_cases hj : j.jobId = jobId
      · simp [forcedKillFire, h, hj]
      · simp [forcedKillFire, h, hj]

/-- Claim C6: the clear command clears the stored external-session identifier
of the user, so the next dispatch selects the fresh-session flag rather than
the resume flag, and when a live not-yet-canceled Job exists it performs the
same cancellation state change and cancellation side effects as the cancel
command. -/
theorem clear_contract (s : BotState) (store : SessionStore) (u : Nat) :
    getSessionId (clearCmd s store (some u)).2.1 u = none
  ∧ sessionFlagFor (clearCmd s store (some u)).2.1 u = SessionFlag.fresh
  ∧ (∀ j, getJob s u = some j → j.canceled = false →
      (clearCmd s store (some u)).1 = (cancelCmd s (some u)).1
      ∧ (clearCmd s store (some u)).2.2 =
          [Action.activityStop,
           Action.editCancelling j.chatId j.statusMessageId,
           Action.killTerm u,
           Action.scheduleForcedKill u j.jobId 5000,
           Action.replyCleared]) := by
  refine ⟨?_, ?_, ?_⟩
  · cases h : getJob s u with
    | none => simp [clearCmd, h, getSessionId_resetSession]
    | some j =>
      by_cases hc : j.canceled
      · simp [clearCmd, h, hc, getSessionId_resetSession]
      · simp [clearCmd, h, hc, getSessionId_resetSession]
  · have h1 : getSessionId (clearCmd s store (some u)).2.1 u = none := by
      cases h : getJob s u with
      | none => simp [clearCmd, h, getSessionId_resetSession]
      | some j =>
        by_cases hc : j.canceled
        · simp [clearCmd, h, hc, getSessionId_resetSession]
        · simp [clearCmd, h, hc, getSessionId_resetSession]
    simp [sessionFlagFor, h1]
  · intro j hj hc
    constructor
    · simp [clearCmd, cancelCmd, hj, hc]
    · simp [clearCmd, hj, hc]

/-- Claim C7: the drain contract of src/shutdown.ts. With checks of the
tracked-process count separated by the fixed 500 ms poll interval,
waitForAll returns true exactly when some check up to and including the
first one at or past the deadline observes a zero count; and the shutdown
coordinator invokes killAll exactly when processes were outstanding and
waitForAll returned false, so no kill is invoked when it returned true. -/
theorem drain_contract (countAt : Nat → Nat) (timeoutMs : Nat) (initialCount : Nat) :
    (waitForAll countAt timeoutMs = true ↔
        ∃ k, k ≤ pollLimit timeoutMs ∧ countAt k = 0)
  ∧ (0 < initialCount →
      (shutdownKillInvoked initialCount countAt timeoutMs = true ↔
        waitForAll countAt timeoutMs = false))
  ∧ (waitForAll countAt timeoutMs = true →
      shutdownKillInvoked initialCount countAt timeoutMs = false) := by
  refine ⟨?_, ?_, ?_⟩
  · simpa using waitForAllAux_true_iff countAt (pollLimit timeoutMs) 0
  · intro hpos
    have hne : initialCount ≠ 0 := Nat.pos_iff_ne_zero.mp hpos
    simp [shutdownKillInvoked, hne]
  · intro hw
    by_cases hz : initialCount = 0
    · simp [shutdownKillInvoked, hz]
    · simp [shutdownKillInvoked, hz, hw]

/-- Claim C5, amended: in the spec-modelled run, for every subprocess that has
not exited when the configured wall-clock timeout (started at spawn) expires,
the Job is marked canceled, the subprocess receives a termination signal, and
the run resolves with success false and the timeout-specific error kind. -/
theorem run_timeout_contract (timeoutMs : Nat) (tr : RunTrace)
    (h : timeoutMs ≤ tr.exitTime) :
    (runClaudeModel timeoutMs tr).result.success = false
  ∧ (runClaudeModel timeoutMs tr).result.errorKind = some ErrKind.timeout
  ∧ (runClaudeModel timeoutMs tr).sigtermSent = true
  ∧ (runClaudeModel timeoutMs tr).jobMarkedCanceled = true := by
  have hlt : ¬ tr.exitTime < timeoutMs := Nat.not_lt.mpr h
  simp [runClaudeModel, hlt]

/-- Claim C5, counterexample to the claim as stated: a subprocess that emits
no terminal record at all but exits (with code 0) long before the 300000 ms
timeout satisfies the stated antecedent, yet the run resolves with a
non-timeout failure, no termination signal is sent, and the Job is not marked
canceled. -/
theorem run_early_exit_no_timeout :
    (∀ p ∈ ({ events := [], exitTime := 0, exitCode := 0 } : RunTrace).events,
        isTerminalEvent p.2 = false)
  ∧ (runClaudeModel 300000 { events := [], exitTime := 0, exitCode := 0 }).result.success = false
  ∧ (runClaudeModel 300000 { events := [], exitTime := 0, exitCode := 0 }).result.errorKind
      ≠ some ErrKind.timeout
  ∧ (runClaudeModel 300000 { events := [], exitTime := 0, exitCode := 0 }).sigtermSent = false
  ∧ (runClaudeModel 300000 { events := [], exitTime := 0, exitCode := 0 }).jobMarkedCanceled
      = false := by
  refine ⟨by simp, ?_⟩
  decide

/-- Claim C8, amended: sendUpdate issues an edit call only when the composed
text differs from the last successfully sent edit, and two consecutive ticks
that compose identical text produce at most one edit call provided the edit
issued at the first tick (if any) succeeded. The second tick is taken on the
state left by the first tick with an arbitrary current label, covering
category changes between ticks. -/
theorem status_reporter_suppression (st : ActivityState) (l2 : String)
    (e1 e2 : Nat) (ok2 : Bool) :
    (∀ t, (sendUpdate st e1 ok2).2 = some t → t ≠ st.lastSentText)
  ∧ (composeText l2 e2 = composeText st.currentLabel e1 →
      editCount (sendUpdate st e1 true).2 +
        editCount
          (sendUpdate { (sendUpdate st e1 true).1 with currentLabel := l2 } e2 ok2).2 ≤ 1) := by
  constructor
  · intro t ht
    by_cases hstop : st.stopped
    · simp [sendUpdate, hstop] at ht
    · by_cases hsame : composeText st.currentLabel e1 = st.lastSentText
      · simp [sendUpdate, hstop, hsame] at ht
      · by_cases hok : ok2 = true
        · simp [sendUpdate, hstop, hsame, hok] at ht
          subst ht
          exact hsame
        · simp [sendUpdate, hstop, hsame, hok] at ht
          subst ht
          exact hsame
  · intro heq
    by_cases hstop : st.stopped
    · simp [sendUpdate, hstop, editCount]
    · by_cases hsame : composeText st.currentLabel e1 = st.lastSentText
      · have h1 : (sendUpdate st e1 true).2 = none := by
          simp [sendUpdate, hstop, hsame]
        rw [h1]
        simpa [editCount] using editCount_le_one _
      · simp [sendUpdate, hstop, hsame, editCount, heq]

/-- Claim C8, counterexample to the claim as stated: two consecutive ticks
that compose identical text (possible when interval callbacks are delayed
into the same elapsed second) both issue an edit call when the first edit
attempt fails, because the last-sent text only advances on a successful
edit. -/
theorem status_reporter_double_edit :
    (sendUpdate { currentLabel := "💭 Thinking", lastSentText := "", stopped := false }
        3000 false).2 = some "💭 Thinking  ⏱ 0:03"
  ∧ (sendUpdate
        (sendUpdate { currentLabel := "💭 Thinking", lastSentText := "", stopped := false }
          3000 false).1 3999 false).2 = some "💭 Thinking  ⏱ 0:03"
  ∧ editCount (sendUpdate { currentLabel := "💭 Thinking", lastSentText := "", stopped := false }
        3000 false).2 +
      editCount (sendUpdate
        (sendUpdate { currentLabel := "💭 Thinking", lastSentText := "", stopped := false }
          3000 false).1 3999 false).2 = 2 := by
  decide

/-- Claim C10: the whitelist middleware halts every update whose sender id is
not in the configured whitelist, and every update at all when the whitelist
is empty, replying Access denied (a chat being present), so the message
handler never runs and no subprocess spawn can occur for that update. -/
theorem whitelist_denies (wl : List Nat) (ctx : UpdateCtx) (uid : Nat)
    (hid : ctx.senderId = some uid) (hchat : ctx.chat.isSome = true)
    (hden : wl = [] ∨ uid ∉ wl) :
    whitelistMw wl ctx = MwResult.halted ["Access denied."]
  ∧ ∀ (s : BotState) (msg : String) (env : DispatchEnv),
      messageUpdateRun wl ctx s msg env = (s, []) := by
  have hmw : whitelistMw wl ctx = MwResult.halted ["Access denied."] := by
    rcases hden with hnil | hnm
    · subst hnil
      simp [whitelistMw, hid, hchat]
    · have hc : wl.contains uid = false := by
        simpa using hnm
      simp [whitelistMw, hid, hchat, hc]
      exact fun _ => hnm
  refine ⟨hmw, ?_⟩
  intro s msg env
  cases hpc : privateChatMw ctx with
  | halted rs => simp [messageUpdateRun, hpc]
  | passed => simp [messageUpdateRun, hpc, hmw]

/-- Claim C1: the single-flight guard. Under the invariant that every user
with a running job is in the busy set, a dispatch preserves that invariant on
every path, and a dispatch issued while a Job for the user is live (with a
nonblank message) performs no subprocess spawn and returns exactly the busy
reply, leaving the state unchanged; the running map holds at most one Job per
user by construction of setJob. -/
theorem dispatch_single_flight (s : BotState) (u c : Nat) (msg : String)
    (env : DispatchEnv)
    (hinv : ∀ p ∈ s.running, p.1 ∈ s.busy) :
    (∀ p ∈ (dispatchRun s (some u) (some c) msg env).1.running,
        p.1 ∈ (dispatchRun s (some u) (some c) msg env).1.busy)
  ∧ ((getJob s u).isSome → isBlank msg = false →
      dispatchRun s (some u) (some c) msg env = (s, [Action.replyBusy])
      ∧ Action.spawnChild u ∉ (dispatchRun s (some u) (some c) msg env).2) := by
  constructor
  · by_cases hb : isBlank msg
    · have hstate : (dispatchRun s (some u) (some c) msg env).1 = s := by
        simp [dispatchRun, hb]
      rw [hstate]
      exact hinv
    · have hb2 : isBlank msg = false := by simpa using hb
      by_cases hbusy : u ∈ s.busy
      · have hstate : (dispatchRun s (some u) (some c) msg env).1 = s := by
          simp [dispatchRun, hb2, hbusy]
        rw [hstate]
        exact hinv
      · by_cases hph : env.placeholderOk = false
        · have hrun : (dispatchRun s (some u) (some c) msg env).1.running = s.running := by
            simp [dispatchRun, hb2, hbusy, hph]
          have hbz : (dispatchRun s (some u) (some c) msg env).1.busy
              = (u :: s.busy).filter (fun v => v != u) := by
            simp [dispatchRun, hb2, hbusy, hph]
          intro p hp
          rw [hrun] at hp
          rw [hbz]
          have h1 := hinv p hp
          exact mem_filter_ne (List.mem_cons_of_mem _ h1) (fun he => hbusy (he ▸ h1))
        · have hbz : (dispatchRun s (some u) (some c) msg env).1.busy
              = (u :: s.busy).filter (fun v => v != u) := by
            cases hro : env.runOutcome with
            | ok r =>
              by_cases hcd : env.canceledDuringRun = true
              · simp [dispatchRun, hb2, hbusy, hph, hro, hcd, getJob_mk_cons_self,
                      getJob_setJob_self, cancelMark]
              · simp [dispatchRun, hb2, hbusy, hph, hro, hcd, getJob_mk_cons_self]
            | error e =>
              by_cases hcd : env.canceledDuringRun = true
              · simp [dispatchRun, hb2, hbusy, hph, hro, hcd, getJob_mk_cons_self,
                      getJob_setJob_self, cancelMark]
              · simp [dispatchRun, hb2, hbusy, hph, hro, hcd, getJob_mk_cons_self]
          intro p hp
          have hsub := dispatch_final_running_sub s u c msg env hb2 hbusy hph p hp
          rw [hbz]
          exact mem_filter_ne (List.mem_cons_of_mem _ (hinv p hsub.1)) hsub.2
  · intro hjob hmsg
    obtain ⟨j, hj⟩ := Option.isSome_iff_exists.mp hjob
    have hmem : (u, j) ∈ s.running := findJob_mem (by simpa [getJob] using hj)
    have hbusy : u ∈ s.busy := hinv _ hmem
    constructor
    · simp [dispatchRun, hmsg, hbusy]
    · simp [dispatchRun, hmsg, hbusy]

/-- Claim C3: a Job marked canceled before its promise settled produces no
user-visible reply on the normal-completion path: the settlement emits only
the job-teardown actions (activity stop and status-message deletion after the
spawn-phase actions) and in particular no success output, no empty-response
notice, and no error reply or error edit. -/
theorem canceled_settlement_silent (s : BotState) (u c : Nat) (msg : String)
    (env : DispatchEnv) (r : ClaudeResult)
    (hu : u ∉ s.busy) (hmsg : isBlank msg = false)
    (hph : env.placeholderOk = true)
    (hro : env.runOutcome = Except.ok r)
    (hcan : env.canceledDuringRun = true) :
    (dispatchRun s (some u) (some c) msg env).2 =
      [Action.replyPlaceholder, Action.spawnChild u, Action.trackerRegister,
       Action.activityStop, Action.deleteStatus c env.statusMsgId]
  ∧ (dispatchRun s (some u) (some c) msg env).2.filter isFinalReply = [] := by
  have hph2 : ¬ env.placeholderOk = false := by simp [hph]
  have heq : (dispatchRun s (some u) (some c) msg env).2 =
      [Action.replyPlaceholder, Action.spawnChild u, Action.trackerRegister,
       Action.activityStop, Action.deleteStatus c env.statusMsgId] := by
    simp [dispatchRun, hmsg, hu, hph2, hro, hcan, getJob_cancelMark, getJob_mk_cons_self]
  refine ⟨heq, ?_⟩
  rw [heq]
  simp [isFinalReply]

/-- Claim C4, amended: every dispatch with a nonblank message and present
user and chat ids, whose placeholder reply succeeds, that is not canceled
during the run, and whose terminal delivery call succeeds, resolves to
exactly one terminal user-visible reply: the busy acknowledgment, a success
output, the empty-response notice, or a truncated error message. -/
theorem dispatch_one_terminal_reply (s : BotState) (u c : Nat) (msg : String)
    (env : DispatchEnv)
    (hmsg : isBlank msg = false) (hph : env.placeholderOk = true)
    (hcan : env.canceledDuringRun = false) (hdel : env.deliveryOk = true) :
    ((dispatchRun s (some u) (some c) msg env).2.filter isTerminalReply).length = 1 := by
  have hph2 : ¬ env.placeholderOk = false := by simp [hph]
  by_cases hbusy : u ∈ s.busy
  · simp [dispatchRun, hmsg, hbusy, isTerminalReply]
  · cases hro : env.runOutcome with
    | error e =>
      simp [dispatchRun, hmsg, hbusy, hph2, hro, isTerminalReply]
    | ok r =>
      by_cases hs : r.success = true
      · by_cases ho : r.output = ""
        · simp [dispatchRun, hmsg, hbusy, hph2, hro, hcan, hdel, hs, ho,
                getJob_mk_cons_self, isTerminalReply]
        · simp [dispatchRun, hmsg, hbusy, hph2, hro, hcan, hdel, hs, ho,
                getJob_mk_cons_self, isTerminalReply]
      · simp [dispatchRun, hmsg, hbusy, hph2, hro, hcan, hdel, hs,
              getJob_mk_cons_self, isTerminalReply]

/-- Claim C4, counterexample to the claim as stated: a dispatch whose
placeholder reply fails returns after releasing the busy set without issuing
any terminal user-visible reply at all, so this execution path ends in
silence rather than in exactly one terminal reply. -/
theorem dispatch_silent_on_placeholder_failure :
    (dispatchRun exFreeState (some 7) (some 9) "hi" exEnvPlaceholderFail).2
      = [Action.replyPlaceholder]
  ∧ ((dispatchRun exFreeState (some 7) (some 9) "hi" exEnvPlaceholderFail).2.filter
      isTerminalReply).length = 0 := by
  decide

/-- Claim C9, amended: every dispatch entered with the user id absent from
the busy set leaves it absent from the busy set when it returns, on every
settle path (placeholder failure, normal completion, cancellation, or thrown
error); a dispatch rejected by the busy guard leaves the whole state
unchanged (the id stays in the set held by the in-flight dispatch). -/
theorem dispatch_busy_release (s : BotState) (u c : Nat) (msg : String)
    (env : DispatchEnv) :
    (u ∉ s.busy → u ∉ (dispatchRun s (some u) (some c) msg env).1.busy)
  ∧ (u ∈ s.busy → (dispatchRun s (some u) (some c) msg env).1 = s) := by
  constructor
  · intro hu
    by_cases hb : isBlank msg
    · simp [dispatchRun, hb]
      exact hu
    · by_cases hph : env.placeholderOk = false
      · simp [dispatchRun, hb, hu, hph]
      · cases hro : env.runOutcome with
        | ok r => simp [dispatchRun, hb, hu, hph, hro]
        | error e => simp [dispatchRun, hb, hu, hph, hro]
  · intro hu
    by_cases hb : isBlank msg
    · simp [dispatchRun, hb]
    · simp [dispatchRun, hb, hu]

/-- Claim C9, counterexample to the claim as stated: an invocation that
settles by busy rejection returns with the user id still present in the busy
set, because that membership is owned by the in-flight dispatch that added
it, so the busy-rejection path does not leave the id absent. -/
theorem dispatch_busy_kept_on_rejection :
    7 ∈ exBusyState.busy
  ∧ (dispatchRun exBusyState (some 7) (some 9) "hi" exEnvOk).2 = [Action.replyBusy]
  ∧ 7 ∈ (dispatchRun exBusyState (some 7) (some 9) "hi" exEnvOk).1.busy := by
  decide

/-! ## Witnesses -/

theorem dispatch_single_flight_witness :
    dispatchRun exBusyState (some 7) (some 9) "hi" exEnvOk = (exBusyState, [Action.replyBusy])
  ∧ Action.spawnChild 7 ∉ (dispatchRun exBusyState (some 7) (some 9) "hi" exEnvOk).2 :=
  (dispatch_single_flight exBusyState 7 9 "hi" exEnvOk (by decide)).2 (by decide) (by decide)

theorem cancel_contract_witness :
    cancelCmd exBusyState (some 7)
      = (setJob exBusyState 7
           { jobId := 1, chatId := 9, statusMessageId := 42
           , canceled := true, activityStopped := true },
         [Action.activityStop, Action.editCancelling 9 42, Action.killTerm 7,
          Action.scheduleForcedKill 7 1 5000, Action.replyCancelAck]) :=
  (cancel_contract exBusyState 7).2.2.1 exJob (by decide) (by decide)

theorem canceled_settlement_silent_witness :
    (dispatchRun exFreeState (some 7) (some 9) "hi" exEnvCanceled).2 =
      [Action.replyPlaceholder, Action.spawnChild 7, Action.trackerRegister,
       Action.activityStop, Action.deleteStatus 9 50]
  ∧ (dispatchRun exFreeState (some 7) (some 9) "hi" exEnvCanceled).2.filter isFinalReply = [] :=
  canceled_settlement_silent exFreeState 7 9 "hi" exEnvCanceled exResultOk
    (by decide) (by decide) (by decide) rfl (by decide)

theorem dispatch_one_terminal_reply_witness :
    ((dispatchRun exFreeState (some 7) (some 9) "hi" exEnvOk).2.filter
      isTerminalReply).length = 1 :=
  dispatch_one_terminal_reply exFreeState 7 9 "hi" exEnvOk
    (by decide) (by decide) (by decide) (by decide)

theorem run_timeout_contract_witness :
    (runClaudeModel 300000 { events := [], exitTime := 300000, exitCode := 0 }).result.success
      = false
  ∧ (runClaudeModel 300000 { events := [], exitTime := 300000, exitCode := 0 }).result.errorKind
      = some ErrKind.timeout
  ∧ (runClaudeModel 300000 { events := [], exitTime := 300000, exitCode := 0 }).sigtermSent = true
  ∧ (runClaudeModel 300000 { events := [], exitTime := 300000, exitCode := 0 }).jobMarkedCanceled
      = true :=
  run_timeout_contract 300000 { events := [], exitTime := 300000, exitCode := 0 } (by decide)

theorem clear_contract_witness :
    getSessionId (clearCmd exBusyState [(7, "sess")] (some 7)).2.1 7 = none
  ∧ sessionFlagFor (clearCmd exBusyState [(7, "sess")] (some 7)).2.1 7 = SessionFlag.fresh
  ∧ ((clearCmd exBusyState [(7, "sess")] (some 7)).1 = (cancelCmd exBusyState (some 7)).1
     ∧ (clearCmd exBusyState [(7, "sess")] (some 7)).2.2 =
         [Action.activityStop, Action.editCancelling 9 42, Action.killTerm 7,
          Action.scheduleForcedKill 7 1 5000, Action.replyCleared]) :=
  ⟨(clear_contract exBusyState [(7, "sess")] 7).1,
   (clear_contract exBusyState [(7, "sess")] 7).2.1,
   (clear_contract exBusyState [(7, "sess")] 7).2.2 exJob (by decide) (by decide)⟩

theorem drain_contract_witness :
    shutdownKillInvoked 3 (fun _ => 3) 30000 = true :=
  ((drain_contract (fun _ => 3) 30000 3).2.1 (by decide)).mpr (by decide)

theorem status_reporter_suppression_witness :
    editCount (sendUpdate exActSt 3000 true).2 +
      editCount
        (sendUpdate { (sendUpdate exActSt 3000 true).1 with currentLabel := "💭 Thinking" }
          3999 false).2 ≤ 1 :=
  (status_reporter_suppression exActSt "💭 Thinking" 3000 3999 false).2 (by decide)

theorem dispatch_busy_release_witness :
    7 ∉ (dispatchRun exFreeState (some 7) (some 9) "hi" exEnvOk).1.busy :=
  (dispatch_busy_release exFreeState 7 9 "hi" exEnvOk).1 (by decide)

theorem whitelist_denies_witness :
    whitelistMw [] exCtx = MwResult.halted ["Access denied."]
  ∧ messageUpdateRun [] exCtx exFreeState "hi" exEnvOk = (exFreeState, []) :=
  ⟨(whitelist_denies [] exCtx 5 rfl rfl (Or.inl rfl)).1,
   (whitelist_denies [] exCtx 5 rfl rfl (Or.inl rfl)).2 exFreeState "hi" exEnvOk⟩

end ClaudeTelegram
